import Mathlib

/-!
Shallow embedding of the Evolutionary Generation Engine of the
`evolutionary-music-studio` repository.

Sources embedded here:
* `src/lib/types/generation.ts` — the data model (EmotionalVector,
  MusicParameters, FitnessScores, Generation, Session, ...).
* `src/lib/engine/musicEngine.ts` — `MusicEngine.emotionToParams` and its
  helpers (the Parameter Synthesizer).
* `src/lib/evolution/evolutionEngine.ts` — `EvolutionEngine.evolve`,
  `chooseMutationStrategy`, `parseFeedback`, `applyMutation` and its
  mutation helpers, and `evaluateFitness` (the Fitness Evaluator).
* `src/lib/stores/sessionStore.ts` — `evolveCurrentGeneration`.

Modelling conventions:
* JavaScript numbers are embedded as `ℚ`; every arithmetic operation used by
  the engine (+, *, /, Math.max, Math.min, Math.abs, Math.floor, Math.ceil)
  is exact on rationals.  Division by zero follows Lean's `q / 0 = 0`
  convention (it can only arise in `variance` on an empty synth list, where
  JavaScript would produce NaN).
* Every call to `Math.random()` is one draw from an explicit random source.
  Functions that consume randomness take a stream `r : ℕ → ℚ` (or a family
  of streams `r : ℕ → ℕ → ℚ` when they fan out to helpers); each syntactic
  call site / loop iteration reads its own position of the stream, so any
  actual sequence of draws in `[0,1)` is representable.
* JavaScript array indexing `xs[i]` is embedded as `List.getD i default`;
  every default value is marked at its definition and is unreachable for
  draws in `[0,1)` and inputs in their documented ranges.
* `Date.now()` and `generateId()` are injected as explicit `now` / `newId`
  parameters: no claim depends on their values.
* The `generateCode` string renderer, `play`/`stop` (Tone.js playback), and
  the narrative reasoning-text helpers are not modelled: no claim mentions
  the produced strings.  The corresponding `Generation` fields (`musicCode`,
  `creativeReasoning`, `audioBuffer`, and the `memory` field of `Session`)
  are omitted from the embedded records.
* `applyMutation` returns a pair `(result, inputAfter)`.  The second
  component renders the observable state of the `params` argument after the
  call: `mutateSynth` copies a synth with a shallow spread `{...synth}` and
  then assigns through the *shared* nested `oscillator` and `envelope`
  objects, so a timbral mutation writes through to the caller's synths.  For
  every other branch the deep clone (`JSON.parse(JSON.stringify(params))`)
  keeps the argument intact and `inputAfter = params`.
-/

namespace EvoMusic

/-- Does `hay` start with `needle`?  (helper for the embedding of
JavaScript's `String.prototype.includes`). -/
def listStartsWith : List Char → List Char → Bool
  | _, [] => true
  | [], _ :: _ => false
  | h :: hs, n :: ns => h == n && listStartsWith hs ns

/-- Does `hay` contain `needle` as a contiguous subsequence? -/
def listContainsSeq : List Char → List Char → Bool
  | [], needle => listStartsWith [] needle
  | h :: hs, needle => listStartsWith (h :: hs) needle || listContainsSeq hs needle

/-- Embedding of JavaScript `s.includes(sub)`. -/
def strIncludes (s sub : String) : Bool :=
  listContainsSeq s.data sub.data

/-- Embedding of JavaScript `s.toLowerCase()` (character-wise lowering; the
feedback phrases involved are plain ASCII). -/
def strToLower (s : String) : String :=
  ⟨s.data.map Char.toLower⟩

/-- Embedding of `Math.max(0, Math.min(1, x))`, the clamp used by every
fitness assessor. -/
def clamp01 (x : ℚ) : ℚ := max 0 (min 1 x)

/-- Embedding of `Math.floor(x * n)` used for random array indexing:
the resulting `ℕ` index (negative floors collapse to 0, which is unreachable
for draws in `[0,1)`). -/
def randIndex (x : ℚ) (n : ℕ) : ℕ := (⌊x * (n : ℚ)⌋).toNat

/-! ## Data model (`src/lib/types/generation.ts`) -/

/-- EmotionalVector: 8 scalar fields, each documented as 0–1. -/
structure EmotionalVector where
  energy : ℚ
  tension : ℚ
  warmth : ℚ
  complexity : ℚ
  darkness : ℚ
  hope : ℚ
  chaos : ℚ
  space : ℚ
deriving DecidableEq

/-- All eight fields of the vector lie in `[0,1]` (the documented range). -/
def ValidEmotional (e : EmotionalVector) : Prop :=
  0 ≤ e.energy ∧ e.energy ≤ 1 ∧ 0 ≤ e.tension ∧ e.tension ≤ 1 ∧
  0 ≤ e.warmth ∧ e.warmth ≤ 1 ∧ 0 ≤ e.complexity ∧ e.complexity ≤ 1 ∧
  0 ≤ e.darkness ∧ e.darkness ≤ 1 ∧ 0 ≤ e.hope ∧ e.hope ≤ 1 ∧
  0 ≤ e.chaos ∧ e.chaos ≤ 1 ∧ 0 ≤ e.space ∧ e.space ≤ 1

instance (e : EmotionalVector) : Decidable (ValidEmotional e) := by
  unfold ValidEmotional; infer_instance

/-- FitnessScores: five 0–1 heuristic scores. -/
structure FitnessScores where
  emotionalResonance : ℚ
  coherence : ℚ
  interest : ℚ
  surprise : ℚ
  technicalQuality : ℚ
deriving DecidableEq

structure OscillatorSettings where
  type : String
deriving DecidableEq, Inhabited

structure EnvelopeSettings where
  attack : ℚ
  decay : ℚ
  sustain : ℚ
  release : ℚ
deriving DecidableEq, Inhabited

structure SynthSettings where
  type : String
  oscillator : OscillatorSettings
  envelope : EnvelopeSettings
  volume : ℚ
deriving DecidableEq, Inhabited

structure ReverbSettings where
  roomSize : ℚ
  dampening : ℚ
  wet : ℚ
deriving DecidableEq

structure DelaySettings where
  delayTime : String
  feedback : ℚ
  wet : ℚ
deriving DecidableEq

structure FilterSettings where
  frequency : ℚ
  type : String
  rolloff : ℚ
deriving DecidableEq

structure EffectSettings where
  reverb : ReverbSettings
  delay : DelaySettings
  filter : FilterSettings
deriving DecidableEq

/-- PatternDefinition: four parallel arrays. -/
structure PatternDefinition where
  notes : List String
  durations : List String
  velocities : List ℚ
  timing : List ℚ
deriving DecidableEq, Inhabited

structure MusicParameters where
  tempo : ℚ
  key : String
  scale : List String
  timeSignature : ℕ × ℕ
  effects : EffectSettings
  synths : List SynthSettings
  patterns : List PatternDefinition
deriving DecidableEq

inductive MutationType where
  | harmonic
  | rhythmic
  | timbral
  | structural
  | textural
  | radical
deriving DecidableEq

/-- String tag of a mutation type, as it appears in the source union type. -/
def mutationTypeName : MutationType → String
  | .harmonic => "harmonic"
  | .rhythmic => "rhythmic"
  | .timbral => "timbral"
  | .structural => "structural"
  | .textural => "textural"
  | .radical => "radical"

structure MutationStrategy where
  type : MutationType
  description : String
  intensity : ℚ
  targets : List String
deriving DecidableEq

/-- Result shape of `parseFeedback`. -/
structure FeedbackHint where
  suggestedMutation : MutationType
  intensity : ℚ
deriving DecidableEq

/-- The five keys of `FitnessScores`, in declaration order (the order
`Object.entries` enumerates them). -/
inductive FitnessAspect where
  | emotionalResonance
  | coherence
  | interest
  | surprise
  | technicalQuality
deriving DecidableEq

/-- Generation: the aggregate produced by the lifecycle manager.  The
string-rendering fields (`musicCode`, `creativeReasoning`, `audioBuffer`,
`tags` is kept since `evolve` writes it) that no claim mentions are omitted;
`mutations` holds the mutation-type tags. -/
structure Generation where
  id : String
  parentId : Option String
  generationNumber : ℕ
  timestamp : ℤ
  musicParams : MusicParameters
  fitness : FitnessScores
  prompt : String
  mood : EmotionalVector
  mutations : List MutationType
  lockedElements : List String
  branch : String
  tags : List String
deriving DecidableEq

structure SessionSettings where
  autonomyLevel : ℚ
  generationsToRun : ℕ
  creativeTemperature : ℚ
  allowBranching : Bool
deriving DecidableEq

/-- Session: the `memory` field (never read by the core) is omitted. -/
structure Session where
  id : String
  startTime : ℤ
  lastUpdateTime : ℤ
  initialPrompt : String
  currentGeneration : String
  generations : List Generation
  settings : SessionSettings
deriving DecidableEq

/-! ## Parameter Synthesizer (`src/lib/engine/musicEngine.ts`) -/

/-- `MusicEngine.selectKey`.  Deterministic: dark → minor-key set, tense →
fixed chromatic override, else indexed by `hope * (keys.length - 1)`. -/
def selectKey (e : EmotionalVector) : String :=
  let keys : List String :=
    if e.darkness > 0.5 then ["Am", "Dm", "Em", "Bm", "F#m", "Cm"]
    else ["C", "G", "D", "F", "A", "E"]
  if e.tension > 0.7 then (if e.darkness > 0.5 then "C#m" else "Db")
  else keys.getD (⌊e.hope * ((keys.length : ℚ) - 1)⌋).toNat "C"

/-- `MusicEngine.selectScale`.  First-match-wins chain; every branch is a
7-note scale. -/
def selectScale (e : EmotionalVector) : List String :=
  if e.complexity > 0.8 then ["C", "Db", "E", "F", "G", "Ab", "Bb"]
  else if e.darkness > 0.6 then
    (if e.tension > 0.6 then ["C", "D", "Eb", "F#", "G", "Ab", "B"]
     else ["C", "D", "Eb", "F", "G", "Ab", "Bb"])
  else if e.warmth > 0.6 then ["C", "D", "E", "F", "G", "A", "Bb"]
  else ["C", "D", "E", "F", "G", "A", "B"]

/-- `MusicEngine.getComplexTimeSignature`: one random draw indexes a fixed
list of irregular meters (default unreachable for a draw in `[0,1)`). -/
def getComplexTimeSignature (x : ℚ) : ℕ × ℕ :=
  [(5, 4), (7, 8), (6, 8), (9, 8)].getD (randIndex x 4) (5, 4)

/-- `MusicEngine.emotionToEffects`.  Deterministic in the emotion. -/
def emotionToEffects (e : EmotionalVector) : EffectSettings :=
  { reverb :=
      { roomSize := 0.3 + e.space * 0.7
        dampening := 1000 + e.warmth * 4000
        wet := 0.2 + e.space * 0.5 }
    delay :=
      { delayTime := if e.tension > 0.6 then "16n" else "8n"
        feedback := 0.1 + e.complexity * 0.4
        wet := 0.1 + e.space * 0.3 }
    filter :=
      { frequency := 200 + e.energy * 8000
        type := if e.warmth > 0.5 then "lowpass" else "bandpass"
        rolloff := if e.darkness > 0.5 then -24 else -12 } }

/-- `MusicEngine.emotionToSynths`: bass voice always, lead voice when
`complexity > 0.3`, texture voice when `complexity > 0.6`. -/
def emotionToSynths (e : EmotionalVector) : List SynthSettings :=
  { type := "synth"
    oscillator := ⟨if e.warmth > 0.5 then "sine" else "triangle"⟩
    envelope :=
      { attack := 0.01 + e.space * 0.1
        decay := 0.2
        sustain := 0.6 + e.energy * 0.3
        release := 0.5 + e.space * 1.5 }
    volume := -10 } ::
  ((if e.complexity > 0.3 then
      [{ type := if e.tension > 0.6 then "fm" else "synth"
         oscillator := ⟨if e.chaos > 0.5 then "sawtooth" else "square"⟩
         envelope :=
           { attack := 0.05 + e.space * 0.3
             decay := 0.3
             sustain := 0.5 + e.warmth * 0.4
             release := 1.0 + e.space * 2.0 }
         volume := -15 + e.energy * 5 }]
    else []) ++
   (if e.complexity > 0.6 then
      [{ type := if e.chaos > 0.7 then "noise" else "membrane"
         oscillator := ⟨"sine"⟩
         envelope := { attack := 0.001, decay := 0.1, sustain := 0, release := 0.1 }
         volume := -20 }]
    else []))

/-- `MusicEngine.generateBassLine`: length 8 when `complexity > 0.5` else 4;
each step is a chaotic random degree or a fixed `[0,4,3,0]` progression.
Iteration `i` reads draws `2*i` (the chaos gate) and `2*i+1` (the random
degree). -/
def generateBassLine (scale : List String) (e : EmotionalVector) (r : ℕ → ℚ) :
    List String :=
  let length : ℕ := if e.complexity > 0.5 then 8 else 4
  (List.range length).map fun i =>
    if e.chaos > 0.6 ∧ r (2 * i) > 0.7 then
      scale.getD (randIndex (r (2 * i + 1)) scale.length) "C" ++ "2"
    else
      let progression : List ℕ := [0, 4, 3, 0]
      scale.getD (progression.getD (i % progression.length) 0) "C" ++ "2"

/-- Index walk of `MusicEngine.generateMelody`: one random draw per step
(`r i`), carrying the current scale index.  Chaos → random index, tension →
clamped upward drift, otherwise a ±1 step clamped to the scale bounds. -/
def melodySteps (e : EmotionalVector) (scaleLen : ℕ) (r : ℕ → ℚ) :
    ℕ → ℕ → ℕ → List ℕ
  | 0, _, _ => []
  | n + 1, i, cur =>
    let cur' : ℕ :=
      if e.chaos > 0.5 then randIndex (r i) scaleLen
      else if e.tension > 0.5 then
        min (cur + (if r i > 0.5 then 1 else 0)) (scaleLen - 1)
      else
        (max 0 (min ((cur : ℤ) + (if r i > 0.5 then 1 else -1))
          ((scaleLen : ℤ) - 1))).toNat
    cur' :: melodySteps e scaleLen r n (i + 1) cur'

/-- `MusicEngine.generateMelody`: `ceil(4 + complexity*12)` steps starting
from the middle of the scale; octave 4 when `energy > 0.6`, else 3. -/
def generateMelody (scale : List String) (e : EmotionalVector) (r : ℕ → ℚ) :
    List String :=
  let length : ℕ := (⌈(4 : ℚ) + e.complexity * 12⌉).toNat
  (melodySteps e scale.length r length 0 (scale.length / 2)).map fun idx =>
    scale.getD idx "C" ++ (if e.energy > 0.6 then "4" else "3")

/-- Voice selector of `generateRhythm` ('bass' | 'melody'). -/
inductive VoiceKind where
  | bass
  | melody
deriving DecidableEq

/-- `MusicEngine.generateRhythm`: a FIXED length of 8 (bass) or 16 (melody)
duration tokens, independent of how many notes the paired line has.  Step
`i` reads draws `2*i` and `2*i+1` (each JavaScript `&&` draws lazily). -/
def generateRhythm (e : EmotionalVector) (kind : VoiceKind) (r : ℕ → ℚ) :
    List String :=
  let length : ℕ := if kind = VoiceKind.bass then 8 else 16
  (List.range length).map fun i =>
    if e.energy > 0.7 ∧ r (2 * i) > 0.5 then "8n"
    else if e.space > 0.6 ∧ r (2 * i + 1) > 0.7 then "2n"
    else if kind = VoiceKind.bass then "4n" else "8n"

/-- `MusicEngine.generateVelocities`: `length` velocities, each
`0.5 + energy*0.3` plus chaos noise, clamped to `[0.1, 1]`. -/
def generateVelocities (e : EmotionalVector) (length : ℕ) (r : ℕ → ℚ) :
    List ℚ :=
  (List.range length).map fun i =>
    max 0.1 (min 1 ((0.5 + e.energy * 0.3) + (r i - 0.5) * e.chaos * 0.3))

/-- `MusicEngine.generateTiming`: humanizing jitter when `warmth > 0.5`,
plus swing on odd steps when `warmth > 0.6`. -/
def generateTiming (e : EmotionalVector) (length : ℕ) (r : ℕ → ℚ) : List ℚ :=
  (List.range length).map fun i =>
    (if e.warmth > 0.5 then (r i - 0.5) * 0.02 else 0) +
    (if e.warmth > 0.6 ∧ i % 2 = 1 then 0.05 else 0)

/-- `MusicEngine.generatePatterns`: a bass pattern always, a melody pattern
when `complexity > 0.3`.  Velocities and timing are generated with the note
count; durations come from `generateRhythm` with its own fixed length. -/
def generatePatterns (e : EmotionalVector) (scale : List String)
    (r : ℕ → ℕ → ℚ) : List PatternDefinition :=
  let bassNotes := generateBassLine scale e (r 0)
  let bassPattern : PatternDefinition :=
    { notes := bassNotes
      durations := generateRhythm e VoiceKind.bass (r 1)
      velocities := generateVelocities e bassNotes.length (r 2)
      timing := generateTiming e bassNotes.length (r 3) }
  let melodyNotes := generateMelody scale e (r 4)
  let melodyPattern : PatternDefinition :=
    { notes := melodyNotes
      durations := generateRhythm e VoiceKind.melody (r 5)
      velocities := generateVelocities e melodyNotes.length (r 6)
      timing := generateTiming e melodyNotes.length (r 7) }
  [bassPattern] ++ (if e.complexity > 0.3 then [melodyPattern] else [])

/-- `MusicEngine.emotionToParams` — the Parameter Synthesizer.  The prompt
argument is accepted (as in the source) but not consulted by any derivation.
Stream `r 0` feeds the time-signature draw, streams `r (j+1)` feed
`generatePatterns`. -/
def emotionToParams (e : EmotionalVector) (_prompt : String)
    (r : ℕ → ℕ → ℚ) : MusicParameters :=
  let scale := selectScale e
  { tempo := 60 + e.energy * 120
    key := selectKey e
    scale := scale
    timeSignature :=
      if e.chaos > 0.6 then getComplexTimeSignature (r 0 0) else (4, 4)
    effects := emotionToEffects e
    synths := emotionToSynths e
    patterns := generatePatterns e scale (fun j => r (j + 1)) }

/-! ## Fitness Evaluator (`src/lib/evolution/evolutionEngine.ts`) -/

/-- `EvolutionEngine.variance` (population variance).  On `[]` JavaScript
yields NaN; here `q / 0 = 0` makes it total. -/
def variance (nums : List ℚ) : ℚ :=
  let mean := nums.sum / (nums.length : ℚ)
  (nums.map fun n => (n - mean) ^ 2).sum / (nums.length : ℚ)

/-- `assessEmotionalMatch`: base 0.5, tempo-vs-energy and wet-vs-space
matching, clamped. -/
def assessEmotionalMatch (p : MusicParameters) (mood : EmotionalVector) : ℚ :=
  clamp01 (0.5 + (1 - |(p.tempo - 60) / 120 - mood.energy|) * 0.2 +
    (1 - |p.effects.reverb.wet - mood.space|) * 0.2)

/-- `assessCoherence`: base 0.6, rewarded for low volume variance. -/
def assessCoherence (p : MusicParameters) : ℚ :=
  clamp01 (0.6 + max 0 (0.3 - variance (p.synths.map (·.volume))) * 0.4)

/-- `assessInterest`: base 0.4, pattern count (capped) plus distinct
duration tokens. -/
def assessInterest (p : MusicParameters) : ℚ :=
  clamp01 (0.4 + min ((p.patterns.length : ℚ) / 4) 0.3 +
    (((p.patterns.flatMap (·.durations)).dedup.length : ℚ)) * 0.05)

/-- `assessSurprise`: base 0.3, irregular meter and non-7-note scale. -/
def assessSurprise (p : MusicParameters) : ℚ :=
  clamp01 (0.3 + (if p.timeSignature.1 ≠ 4 then 0.2 else 0) +
    (if p.scale.length ≠ 7 then 0.2 else 0))

/-- `assessTechnicalQuality`: base 0.6, sane envelopes and moderate
reverb/delay. -/
def assessTechnicalQuality (p : MusicParameters) : ℚ :=
  clamp01 (0.6 +
    (if p.synths.all fun s =>
        decide (s.envelope.attack < 2 ∧ s.envelope.release < 5)
     then 0.2 else 0) +
    (if p.effects.reverb.wet < 0.8 ∧ p.effects.delay.feedback < 0.8
     then 0.2 else 0))

/-- `EvolutionEngine.evaluateFitness` — the Fitness Evaluator.  The prompt
argument is accepted but unused, as in the source. -/
def evaluateFitness (p : MusicParameters) (mood : EmotionalVector)
    (_prompt : String) : FitnessScores :=
  { emotionalResonance := assessEmotionalMatch p mood
    coherence := assessCoherence p
    interest := assessInterest p
    surprise := assessSurprise p
    technicalQuality := assessTechnicalQuality p }

/-! ## Mutation Strategy Selector -/

/-- `EvolutionEngine.findWeakestAspect`: `Object.entries` enumerates the
five scores in declaration order and the ascending stable sort puts the
earliest minimum first; embedded as a first-wins minimum fold. -/
def findWeakestAspect (f : FitnessScores) : FitnessAspect :=
  let entries : List (FitnessAspect × ℚ) :=
    [(.emotionalResonance, f.emotionalResonance), (.coherence, f.coherence),
     (.interest, f.interest), (.surprise, f.surprise),
     (.technicalQuality, f.technicalQuality)]
  (entries.foldl (fun best e => if e.2 < best.2 then e else best)
    (.emotionalResonance, f.emotionalResonance)).1

/-- `EvolutionEngine.chooseTypeForAspect`: the fixed aspect→type table. -/
def chooseTypeForAspect : FitnessAspect → MutationType
  | .emotionalResonance => .timbral
  | .coherence => .structural
  | .interest => .rhythmic
  | .surprise => .harmonic
  | .technicalQuality => .textural

/-- `EvolutionEngine.parseFeedback`: first-match-wins phrase classes over
the lower-cased feedback. -/
def parseFeedback (feedback : String) : Option FeedbackHint :=
  let lower := strToLower feedback
  if strIncludes lower "more energy" || strIncludes lower "faster" then
    some { suggestedMutation := .rhythmic, intensity := 0.7 }
  else if strIncludes lower "darker" || strIncludes lower "sadder" then
    some { suggestedMutation := .harmonic, intensity := 0.6 }
  else if strIncludes lower "simpler" || strIncludes lower "less" then
    some { suggestedMutation := .structural, intensity := 0.5 }
  else if strIncludes lower "weird" || strIncludes lower "experimental" then
    some { suggestedMutation := .radical, intensity := 0.9 }
  else none

/-- `EvolutionEngine.describeMutation`. -/
def describeMutation (type : MutationType) (intensity : ℚ) : String :=
  (if intensity > 0.7 then "dramatic"
   else if intensity > 0.4 then "moderate" else "subtle") ++
  " " ++ mutationTypeName type ++ " mutation"

/-- `EvolutionEngine.selectTargets`: fixed type→targets table (the params
argument is not consulted, as in the source). -/
def selectTargets (type : MutationType) (_params : MusicParameters) :
    List String :=
  match type with
  | .harmonic => ["scale", "key"]
  | .rhythmic => ["tempo", "patterns.durations"]
  | .timbral => ["synths", "effects"]
  | .structural => ["patterns", "timeSignature"]
  | .textural => ["effects.reverb", "effects.delay"]
  | .radical => ["everything"]

/-- `EvolutionEngine.chooseMutationStrategy`.  JavaScript's
`feedback ? parseFeedback(feedback) : null` treats the empty string as
absent feedback. -/
def chooseMutationStrategy (parent : Generation) (temperature : ℚ)
    (feedback : Option String) : MutationStrategy :=
  let weakestAspect := findWeakestAspect parent.fitness
  let feedbackHints : Option FeedbackHint :=
    match feedback with
    | some f => if f = "" then none else parseFeedback f
    | none => none
  let chosen : MutationType × ℚ :=
    match feedbackHints with
    | some h => (h.suggestedMutation, h.intensity)
    | none =>
      if temperature > 0.8 then (.radical, 0.7 + temperature * 0.3)
      else (chooseTypeForAspect weakestAspect, 0.3 + temperature * 0.4)
  { type := chosen.1
    description := describeMutation chosen.1 chosen.2
    intensity := chosen.2
    targets := selectTargets chosen.1 parent.musicParams }

/-! ## Mutation Applicator -/

/-- The 12 chromatic pitch-class names that `mutateScale`, `mutateKey` and
`generateRadicalScale` each spell out literally in the source (assembled in
halves here). -/
def chromaticNames : List String :=
  ["C", "C#", "D", "D#", "E", "F"] ++ ["F#", "G", "G#", "A", "A#", "B"]

/-- `EvolutionEngine.mutateScale`: subtle (`intensity < 0.3`) changes one
random pitch of a copy; otherwise a fixed named mode. -/
def mutateScale (scale : List String) (intensity : ℚ) (r : ℕ → ℚ) :
    List String :=
  if intensity < 0.3 then
    let chromatic : List String := chromaticNames
    scale.set (randIndex (r 0) scale.length)
      (chromatic.getD (randIndex (r 1) chromatic.length) "C")
  else if intensity > 0.7 then ["C", "Db", "E", "F", "G", "Ab", "Bb"]
  else ["C", "D", "E", "F#", "G", "A", "B"]

/-- `EvolutionEngine.mutateKey`: subtle keeps the mode and moves by fifth
(the mode test is the substring check `key.includes('m')`); otherwise a
uniformly random pick among the 24 keys. -/
def mutateKey (key : String) (intensity : ℚ) (r : ℕ → ℚ) : String :=
  let keys : List String := chromaticNames
  let minors := keys.map (· ++ "m")
  let allKeys := keys ++ minors
  if intensity < 0.4 then (if strIncludes key "m" then "Am" else "G")
  else allKeys.getD (randIndex (r 0) allKeys.length) "C"

/-- `EvolutionEngine.mutateTempo`: random delta scaled by intensity, clamped
to `[40, 200]`. -/
def mutateTempo (tempo intensity : ℚ) (r : ℕ → ℚ) : ℚ :=
  max 40 (min 200 (tempo + (r 0 - 0.5) * intensity * 40))

/-- `EvolutionEngine.alterDuration`: a uniformly random token from the
vocabulary (the current duration argument is unused, as in the source). -/
def alterDuration (_duration : String) (x : ℚ) : String :=
  ["16n", "8n", "4n", "2n"].getD (randIndex x 4) "4n"

/-- `EvolutionEngine.mutateRhythm`: subtle re-rolls ~30% of steps, dramatic
re-rolls every step (from the first step's duration, which `alterDuration`
then ignores). -/
def mutateRhythm (durations : List String) (intensity : ℚ) (r : ℕ → ℚ) :
    List String :=
  if intensity < 0.4 then
    durations.mapIdx fun i d =>
      if r (2 * i) < 0.3 then alterDuration d (r (2 * i + 1)) else d
  else
    durations.mapIdx fun i _ => alterDuration durations.headI (r i)

/-- `EvolutionEngine.mutateSynth`: re-rolls the oscillator shape when
`intensity > 0.5` and always jitters attack/release.  NOTE: the source
copies the synth with a shallow spread `{...synth}` and then assigns
through the shared nested `oscillator`/`envelope` objects, so the returned
value is also the post-call state of the argument synth. -/
def mutateSynth (s : SynthSettings) (intensity : ℚ) (r : ℕ → ℚ) :
    SynthSettings :=
  { s with
    oscillator :=
      if intensity > 0.5 then
        ⟨["sine", "triangle", "sawtooth", "square"].getD (randIndex (r 0) 4)
          "sine"⟩
      else s.oscillator
    envelope :=
      { s.envelope with
        attack := s.envelope.attack + (r 1 - 0.5) * intensity * 0.5
        release := s.envelope.release + (r 2 - 0.5) * intensity * 1.0 } }

/-- `EvolutionEngine.mutateEffects`: deep-clones, then jitters and clamps
reverb room size (`[0.1, 0.9]`) and delay feedback (`[0, 0.9]`). -/
def mutateEffects (effects : EffectSettings) (intensity : ℚ) (r : ℕ → ℚ) :
    EffectSettings :=
  { effects with
    reverb :=
      { effects.reverb with
        roomSize :=
          max 0.1 (min 0.9
            (effects.reverb.roomSize + (r 0 - 0.5) * intensity * 0.5)) }
    delay :=
      { effects.delay with
        feedback :=
          max 0 (min 0.9
            (effects.delay.feedback + (r 1 - 0.5) * intensity * 0.3)) } }

/-- `EvolutionEngine.generateRadicalScale`: 5–7 uniformly random chromatic
pitches (draw 0 picks the length, draw `i+1` picks pitch `i`). -/
def generateRadicalScale (r : ℕ → ℚ) : List String :=
  let chromatic : List String := chromaticNames
  let length : ℕ := 5 + randIndex (r 0) 3
  (List.range length).map fun i =>
    chromatic.getD (randIndex (r (i + 1)) chromatic.length) "C"

/-- `EvolutionEngine.applyMutation`.  The first component is the returned
`newParams` (built from the deep clone); the second component is the
observable state of the `params` ARGUMENT after the call.  Only the timbral
branch writes through to the argument (see `mutateSynth`); every other
branch leaves it equal to `params`.  Stream allocation: harmonic — scale
`r 0`, key `r 1`; rhythmic — tempo `r 0`, pattern `i` rhythm `r (i+1)`;
timbral — effects `r 0`, synth `i` gets `r (i+2)`; textural — draws
`r 0 0` / `r 0 1`; radical — scale `r 0`, tempo `r 1 0`. -/
def applyMutation (params : MusicParameters) (strategy : MutationStrategy)
    (locked : List String) (r : ℕ → ℕ → ℚ) :
    MusicParameters × MusicParameters :=
  match strategy.type with
  | .harmonic =>
    let p1 :=
      if locked.contains "scale" then params
      else { params with scale := mutateScale params.scale strategy.intensity (r 0) }
    let p2 :=
      if locked.contains "key" then p1
      else { p1 with key := mutateKey params.key strategy.intensity (r 1) }
    (p2, params)
  | .rhythmic =>
    let p1 :=
      if locked.contains "tempo" then params
      else { params with tempo := mutateTempo params.tempo strategy.intensity (r 0) }
    let p2 :=
      if locked.contains "patterns" then p1
      else
        { p1 with
          patterns := params.patterns.mapIdx fun i p =>
            { p with durations := mutateRhythm p.durations strategy.intensity (r (i + 1)) } }
    (p2, params)
  | .timbral =>
    let newSynths := params.synths.mapIdx fun i s =>
      mutateSynth s strategy.intensity (r (i + 2))
    let p1 :=
      if locked.contains "synths" then params
      else { params with synths := newSynths }
    let p2 :=
      if locked.contains "effects" then p1
      else { p1 with effects := mutateEffects params.effects strategy.intensity (r 0) }
    let inputAfter :=
      if locked.contains "synths" then params
      else { params with synths := newSynths }
    (p2, inputAfter)
  | .structural =>
    let p1 :=
      if locked.contains "patterns" then params
      else
        { params with
          patterns :=
            if strategy.intensity > 0.6 ∧ params.patterns.length > 1 then
              params.patterns.dropLast
            else if strategy.intensity > 0.7 ∧ params.patterns.length < 4 then
              params.patterns ++ [params.patterns.headI]
            else params.patterns }
    (p1, params)
  | .textural =>
    let p1 :=
      if locked.contains "effects" then params
      else
        { params with
          effects :=
            { params.effects with
              reverb :=
                { params.effects.reverb with
                  wet := params.effects.reverb.wet +
                    (r 0 0 - 0.5) * strategy.intensity * 0.3 }
              delay :=
                { params.effects.delay with
                  wet := params.effects.delay.wet +
                    (r 0 1 - 0.5) * strategy.intensity * 0.2 } } }
    (p1, params)
  | .radical =>
    let p1 :=
      if locked.contains "scale" then params
      else { params with scale := generateRadicalScale (r 0) }
    let p2 :=
      if locked.contains "tempo" then p1
      else { p1 with tempo := 40 + r 1 0 * 160 }
    (p2, params)

/-! ## Generation Lifecycle Manager -/

/-- `EvolutionEngine.evolve`: selector → applicator → evaluator, with
lineage metadata.  `newId` and `now` stand in for `generateId()` and
`Date.now()`. -/
def evolve (parent : Generation) (creativeTemperature : ℚ)
    (feedback : Option String) (r : ℕ → ℕ → ℚ) (newId : String) (now : ℤ) :
    Generation :=
  let mutationStrategy := chooseMutationStrategy parent creativeTemperature feedback
  let newParams :=
    (applyMutation parent.musicParams mutationStrategy parent.lockedElements r).1
  { id := newId
    parentId := some parent.id
    generationNumber := parent.generationNumber + 1
    timestamp := now
    musicParams := newParams
    fitness := evaluateFitness newParams parent.mood parent.prompt
    prompt := parent.prompt
    mood := parent.mood
    mutations := parent.mutations ++ [mutationStrategy.type]
    lockedElements := parent.lockedElements
    branch := parent.branch
    tags := [] }

/-- `sessionStore.evolveCurrentGeneration`: looks up the current generation
by id; when absent it throws before any store update, so the session value
is returned unchanged together with the error. -/
def evolveCurrentGeneration (s : Session) (feedback : Option String)
    (r : ℕ → ℕ → ℚ) (newId : String) (now : ℤ) :
    Session × Except String Generation :=
  match s.generations.find? (fun g => g.id == s.currentGeneration) with
  | none => (s, .error "No current generation to evolve")
  | some current =>
    let newGen := evolve current s.settings.creativeTemperature feedback r newId now
    ({ s with
        currentGeneration := newGen.id
        generations := s.generations ++ [newGen]
        lastUpdateTime := now },
     .ok newGen)

/-! ## Concrete sample inputs used by witnesses and counterexamples -/

/-- The all-zero emotional vector (every field at the low end of its
documented `[0,1]` range). -/
def eZero : EmotionalVector := ⟨0, 0, 0, 0, 0, 0, 0, 0⟩

/-- Random source whose every draw is `0` (a legal value of
`Math.random()`). -/
def rZero2 : ℕ → ℕ → ℚ := fun _ _ => 0

/-- Random source whose every draw is `1/2`. -/
def rHalf2 : ℕ → ℕ → ℚ := fun _ _ => 1 / 2

/-- Random source whose every draw is `9/10`. -/
def rNine2 : ℕ → ℕ → ℚ := fun _ _ => 9 / 10

/-- A small concrete pattern with all four arrays of length 2. -/
def samplePattern : PatternDefinition :=
  ⟨["C2", "E2"], ["4n", "4n"], [4/5, 4/5], [0, 0]⟩

/-- A concrete `MusicParameters` value with every numeric field inside its
documented valid range (tempo in `[40,200]`, wet levels in `[0,1]`,
feedback in `[0,0.9]`, room size in `[0.1,0.9]`, non-negative envelope
times), one synth voice, and exactly two pattern layers. -/
def sampleParams : MusicParameters :=
  { tempo := 120
    key := "C"
    scale := ["C", "D", "E", "F", "G", "A", "B"]
    timeSignature := (4, 4)
    effects :=
      { reverb := { roomSize := 1/2, dampening := 3000, wet := 1 }
        delay := { delayTime := "8n", feedback := 3/10, wet := 1 }
        filter := { frequency := 1000, type := "lowpass", rolloff := -12 } }
    synths :=
      [{ type := "synth"
         oscillator := ⟨"sine"⟩
         envelope := { attack := 1/100, decay := 1/5, sustain := 3/5, release := 1/2 }
         volume := -10 }]
    patterns := [samplePattern, samplePattern] }

/-- A session whose generation list is empty, so its current-generation
pointer matches nothing. -/
def emptySession : Session :=
  ⟨"session_1", 0, 0, "", "", [], ⟨1/2, 5, 1/2, true⟩⟩

/-! ## Helper lemmas -/

lemma clamp01_nonneg (x : ℚ) : 0 ≤ clamp01 x := le_max_left 0 _

lemma clamp01_le_one (x : ℚ) : clamp01 x ≤ 1 :=
  max_le (by norm_num) (min_le_left 1 x)

lemma generateBassLine_length (scale : List String) (e : EmotionalVector)
    (r : ℕ → ℚ) :
    (generateBassLine scale e r).length = if e.complexity > 0.5 then 8 else 4 := by
  simp [generateBassLine]

lemma generateRhythm_length (e : EmotionalVector) (kind : VoiceKind)
    (r : ℕ → ℚ) :
    (generateRhythm e kind r).length = if kind = VoiceKind.bass then 8 else 16 := by
  simp [generateRhythm]

lemma generateVelocities_length (e : EmotionalVector) (n : ℕ) (r : ℕ → ℚ) :
    (generateVelocities e n r).length = n := by
  simp [generateVelocities]

lemma generateTiming_length (e : EmotionalVector) (n : ℕ) (r : ℕ → ℚ) :
    (generateTiming e n r).length = n := by
  simp [generateTiming]

lemma melodySteps_length (e : EmotionalVector) (scaleLen : ℕ) (r : ℕ → ℚ) :
    ∀ (n i cur : ℕ), (melodySteps e scaleLen r n i cur).length = n := by
  intro n
  induction n with
  | zero => intro i cur; rfl
  | succ k ih => intro i cur; simp [melodySteps, ih]

lemma generateMelody_length (scale : List String) (e : EmotionalVector)
    (r : ℕ → ℚ) :
    (generateMelody scale e r).length = (⌈(4 : ℚ) + e.complexity * 12⌉).toNat := by
  simp [generateMelody, melodySteps_length]

/-! ## Claim theorems -/

/-- C1 (counterexample): at the valid all-zero emotional vector the
synthesized bass pattern has 4 notes but 8 duration tokens, so the four
parallel arrays of a pattern do NOT all have equal length (`generateRhythm`
always emits 8 bass / 16 melody tokens regardless of the note count). -/
theorem emotionToParams_parallel_cex :
    ValidEmotional eZero ∧
    (emotionToParams eZero "calm" rZero2).patterns.headI.notes.length = 4 ∧
    (emotionToParams eZero "calm" rZero2).patterns.headI.durations.length = 8 := by
  refine ⟨by decide, ?_, ?_⟩ <;>
    norm_num [emotionToParams, generatePatterns, generateBassLine,
      generateRhythm, selectScale, eZero, rZero2]

/-- C1 (amended): for every EmotionalVector with all eight fields in
`[0,1]`, `emotionToParams` yields tempo in `[60,180]`, a non-empty scale,
at least one synth voice, and in every pattern the notes, velocities and
timing arrays have equal length while the durations array is at least as
long as the notes array (it has fixed length 8 for the bass pattern and 16
for the melody pattern). -/
theorem emotionToParams_structure (e : EmotionalVector) (prompt : String)
    (r : ℕ → ℕ → ℚ) (he : ValidEmotional e) :
    (60 ≤ (emotionToParams e prompt r).tempo ∧
      (emotionToParams e prompt r).tempo ≤ 180) ∧
    (emotionToParams e prompt r).scale ≠ [] ∧
    (emotionToParams e prompt r).synths ≠ [] ∧
    ∀ pat ∈ (emotionToParams e prompt r).patterns,
      pat.velocities.length = pat.notes.length ∧
      pat.timing.length = pat.notes.length ∧
      pat.notes.length ≤ pat.durations.length := by
  obtain ⟨hen0, hen1, -, -, -, -, hco0, hco1, -, -, -, -, -, -, -, -⟩ := he
  refine ⟨⟨?_, ?_⟩, ?_, ?_, ?_⟩
  · show 60 ≤ 60 + e.energy * 120
    nlinarith
  · show 60 + e.energy * 120 ≤ 180
    nlinarith
  · show selectScale e ≠ []
    unfold selectScale
    split_ifs <;> simp
  · show emotionToSynths e ≠ []
    simp [emotionToSynths]
  · intro pat hpat
    have hmel : (⌈(4 : ℚ) + e.complexity * 12⌉).toNat ≤ 16 := by
      rw [Int.toNat_le, Int.ceil_le]
      push_cast
      linarith
    simp only [emotionToParams, generatePatterns, List.mem_append,
      List.mem_singleton] at hpat
    rcases hpat with hpat | hpat
    · subst hpat
      refine ⟨generateVelocities_length .., generateTiming_length .., ?_⟩
      show (generateBassLine _ _ _).length ≤ (generateRhythm _ _ _).length
      rw [generateBassLine_length, generateRhythm_length]
      split_ifs <;> simp
    · by_cases hcplx : e.complexity > 0.3
      · rw [if_pos hcplx] at hpat
        simp only [List.mem_singleton] at hpat
        subst hpat
        refine ⟨generateVelocities_length .., generateTiming_length .., ?_⟩
        show (generateMelody _ _ _).length ≤ (generateRhythm _ _ _).length
        rw [generateMelody_length, generateRhythm_length]
        simpa using hmel
      · rw [if_neg hcplx] at hpat
        simp at hpat

/-- C1 (amended) witness: the amended structure theorem evaluated at the
all-zero vector. -/
theorem emotionToParams_structure_witness :
    ValidEmotional eZero ∧
    ((60 ≤ (emotionToParams eZero "calm" rZero2).tempo ∧
       (emotionToParams eZero "calm" rZero2).tempo ≤ 180) ∧
     (emotionToParams eZero "calm" rZero2).scale ≠ [] ∧
     (emotionToParams eZero "calm" rZero2).synths ≠ [] ∧
     ∀ pat ∈ (emotionToParams eZero "calm" rZero2).patterns,
       pat.velocities.length = pat.notes.length ∧
       pat.timing.length = pat.notes.length ∧
       pat.notes.length ≤ pat.durations.length) :=
  ⟨by decide, emotionToParams_structure eZero "calm" rZero2 (by decide)⟩

lemma mutateTempo_mem (t i : ℚ) (r : ℕ → ℚ) :
    40 ≤ mutateTempo t i r ∧ mutateTempo t i r ≤ 200 := by
  unfold mutateTempo
  exact ⟨le_max_left _ _, max_le (by norm_num) (min_le_left _ _)⟩

/-- C2 (code bug): a timbral mutation writes through to its `params`
argument.  At a concrete valid input (one synth, intensity 0.6, every draw
0, nothing locked) the state of the argument after the call differs from
its state before the call: `mutateSynth`'s shallow `{...synth}` copy shares
the nested `oscillator`/`envelope` objects with the original, so the
argument synth's envelope attack moves from 0.01 to -0.14. -/
theorem applyMutation_timbral_mutates_input :
    (applyMutation sampleParams
      ⟨.timbral, "moderate timbral mutation", 3/5, ["synths", "effects"]⟩
      [] rZero2).2 ≠ sampleParams := by
  intro h
  have h2 := congrArg (fun p => p.synths.headI.envelope.attack) h
  norm_num [applyMutation, mutateSynth, sampleParams, rZero2] at h2

/-- C3 (counterexample): the textural mutation does NOT re-clamp the
perturbed wet levels.  At a concrete input whose reverb wet is 1 (inside
the documented `[0,1]` range), a textural mutation of intensity 1 with
every draw 9/10 leaves reverb wet at 1.12 > 1. -/
theorem applyMutation_textural_unclamped_cex :
    0 ≤ sampleParams.effects.reverb.wet ∧ sampleParams.effects.reverb.wet ≤ 1 ∧
    1 < (applyMutation sampleParams
      ⟨.textural, "dramatic textural mutation", 1, []⟩
      [] rNine2).1.effects.reverb.wet := by
  refine ⟨by norm_num [sampleParams], by norm_num [sampleParams], ?_⟩
  norm_num [applyMutation, sampleParams, rNine2]

/-- C3 (amended): the numeric fields that the Mutation Applicator DOES
re-clamp stay in range for every input and every draw sequence in `[0,1)`:
tempo is clamped to `[40,200]` by the rhythmic mutation and regenerated
inside `[40,200)` by the radical mutation, and the timbral mutation clamps
reverb room size to `[0.1,0.9]` and delay feedback to `[0,0.9]`.  (The
textural wet perturbations and the timbral envelope attack/release
perturbations are applied without re-clamping — see the counterexample.) -/
theorem applyMutation_clamped_fields (params : MusicParameters) (d : String)
    (i : ℚ) (ts locked : List String) (r : ℕ → ℕ → ℚ)
    (hr : ∀ a b, 0 ≤ r a b ∧ r a b < 1) :
    (locked.contains "tempo" = false →
      40 ≤ (applyMutation params ⟨.rhythmic, d, i, ts⟩ locked r).1.tempo ∧
      (applyMutation params ⟨.rhythmic, d, i, ts⟩ locked r).1.tempo ≤ 200) ∧
    (locked.contains "tempo" = false →
      40 ≤ (applyMutation params ⟨.radical, d, i, ts⟩ locked r).1.tempo ∧
      (applyMutation params ⟨.radical, d, i, ts⟩ locked r).1.tempo < 200) ∧
    (locked.contains "effects" = false →
      (0.1 ≤ (applyMutation params ⟨.timbral, d, i, ts⟩ locked r).1.effects.reverb.roomSize ∧
       (applyMutation params ⟨.timbral, d, i, ts⟩ locked r).1.effects.reverb.roomSize ≤ 0.9) ∧
      (0 ≤ (applyMutation params ⟨.timbral, d, i, ts⟩ locked r).1.effects.delay.feedback ∧
       (applyMutation params ⟨.timbral, d, i, ts⟩ locked r).1.effects.delay.feedback ≤ 0.9)) := by
  refine ⟨fun h => ?_, fun h => ?_, fun h => ?_⟩
  · have hm := mutateTempo_mem params.tempo i (r 0)
    simp only [applyMutation, h, Bool.false_eq_true, if_false]
    split
    · exact hm
    · exact hm
  · obtain ⟨hr0, hr1⟩ := hr 1 0
    simp only [applyMutation, h, Bool.false_eq_true, if_false]
    constructor
    · show (40 : ℚ) ≤ 40 + r 1 0 * 160
      nlinarith
    · show (40 : ℚ) + r 1 0 * 160 < 200
      nlinarith
  · simp only [applyMutation, h, Bool.false_eq_true, if_false, mutateEffects]
    refine ⟨⟨le_max_left _ _, max_le (by norm_num) (min_le_left _ _)⟩,
      ⟨le_max_left _ _, max_le (by norm_num) (min_le_left _ _)⟩⟩

/-- C3 (amended) witness: the clamp theorem evaluated at the concrete
sample input with constant draw 1/2. -/
theorem applyMutation_clamped_fields_witness :
    40 ≤ (applyMutation sampleParams ⟨.rhythmic, "", 1/2, []⟩ [] rHalf2).1.tempo ∧
    (applyMutation sampleParams ⟨.rhythmic, "", 1/2, []⟩ [] rHalf2).1.tempo ≤ 200 :=
  (applyMutation_clamped_fields sampleParams "" (1/2) [] [] rHalf2
    (fun a b => by norm_num [rHalf2])).1 rfl

/-- C4: for every mutation strategy and random source, a field name that is
present in `lockedFields` keeps its input value in the applicator's output,
for each of the six lockable fields. -/
theorem applyMutation_locked_fields (params : MusicParameters)
    (strategy : MutationStrategy) (locked : List String) (r : ℕ → ℕ → ℚ) :
    (locked.contains "scale" = true →
      (applyMutation params strategy locked r).1.scale = params.scale) ∧
    (locked.contains "key" = true →
      (applyMutation params strategy locked r).1.key = params.key) ∧
    (locked.contains "tempo" = true →
      (applyMutation params strategy locked r).1.tempo = params.tempo) ∧
    (locked.contains "patterns" = true →
      (applyMutation params strategy locked r).1.patterns = params.patterns) ∧
    (locked.contains "synths" = true →
      (applyMutation params strategy locked r).1.synths = params.synths) ∧
    (locked.contains "effects" = true →
      (applyMutation params strategy locked r).1.effects = params.effects) := by
  obtain ⟨ty, d, i, ts⟩ := strategy
  cases ty <;>
    refine ⟨fun h => ?_, fun h => ?_, fun h => ?_, fun h => ?_, fun h => ?_,
      fun h => ?_⟩ <;>
    simp only [applyMutation] <;>
    simp at h <;>
    simp [h] <;>
    split_ifs <;>
    rfl

/-- C4 witness: a harmonic mutation with `scale` locked leaves the scale of
the concrete sample input unchanged. -/
theorem applyMutation_locked_fields_witness :
    (applyMutation sampleParams ⟨.harmonic, "", 4/5, []⟩ ["scale"] rHalf2).1.scale =
      sampleParams.scale :=
  (applyMutation_locked_fields sampleParams ⟨.harmonic, "", 4/5, []⟩ ["scale"]
    rHalf2).1 (by decide)

/-- C5: every Generation produced by `evolve` has the parent's generation
number plus one, the parent's id as `parentId`, the parent's mutation
history with the chosen mutation type appended, and the parent's locked
elements and branch label unchanged. -/
theorem evolve_lineage (parent : Generation) (temperature : ℚ)
    (feedback : Option String) (r : ℕ → ℕ → ℚ) (newId : String) (now : ℤ) :
    (evolve parent temperature feedback r newId now).generationNumber =
      parent.generationNumber + 1 ∧
    (evolve parent temperature feedback r newId now).parentId = some parent.id ∧
    (evolve parent temperature feedback r newId now).mutations =
      parent.mutations ++ [(chooseMutationStrategy parent temperature feedback).type] ∧
    (evolve parent temperature feedback r newId now).lockedElements =
      parent.lockedElements ∧
    (evolve parent temperature feedback r newId now).branch = parent.branch :=
  ⟨rfl, rfl, rfl, rfl, rfl⟩

/-- C6: the Fitness Evaluator returns all five scores in `[0,1]` for every
MusicParameters value and every EmotionalVector (each assessor ends in the
`Math.max(0, Math.min(1, ·))` clamp). -/
theorem evaluateFitness_range (p : MusicParameters) (mood : EmotionalVector)
    (prompt : String) :
    (0 ≤ (evaluateFitness p mood prompt).emotionalResonance ∧
      (evaluateFitness p mood prompt).emotionalResonance ≤ 1) ∧
    (0 ≤ (evaluateFitness p mood prompt).coherence ∧
      (evaluateFitness p mood prompt).coherence ≤ 1) ∧
    (0 ≤ (evaluateFitness p mood prompt).interest ∧
      (evaluateFitness p mood prompt).interest ≤ 1) ∧
    (0 ≤ (evaluateFitness p mood prompt).surprise ∧
      (evaluateFitness p mood prompt).surprise ≤ 1) ∧
    (0 ≤ (evaluateFitness p mood prompt).technicalQuality ∧
      (evaluateFitness p mood prompt).technicalQuality ≤ 1) := by
  simp only [evaluateFitness, assessEmotionalMatch, assessCoherence,
    assessInterest, assessSurprise, assessTechnicalQuality]
  refine ⟨⟨?_, ?_⟩, ⟨?_, ?_⟩, ⟨?_, ?_⟩, ⟨?_, ?_⟩, ⟨?_, ?_⟩⟩ <;>
    first
      | exact clamp01_nonneg _
      | exact clamp01_le_one _

/-- C7: the feedback text "make it darker and heavier" makes the Mutation
Strategy Selector choose type `harmonic` for every parent fitness and every
creative temperature: the feedback rule precedes both the radical
high-temperature rule and the weakest-dimension rule. -/
theorem chooseMutationStrategy_darker_feedback (parent : Generation)
    (temperature : ℚ) :
    (chooseMutationStrategy parent temperature
      (some "make it darker and heavier")).type = MutationType.harmonic := by
  have h1 : strIncludes (strToLower "make it darker and heavier") "more energy" = false := by
    decide
  have h2 : strIncludes (strToLower "make it darker and heavier") "faster" = false := by
    decide
  have h3 : strIncludes (strToLower "make it darker and heavier") "darker" = true := by
    decide
  simp [chooseMutationStrategy, parseFeedback, h1, h2, h3]

/-- C8: with `patterns` unlocked, a structural mutation of intensity 0.65
on a value with exactly 2 pattern layers removes the last layer (leaving
exactly 1), and for every intensity the structural branch performs at most
one of its two actions: the output layer list is either the input without
its last layer, the input with its first layer appended, or the input
unchanged. -/
theorem applyMutation_structural_actions (params : MusicParameters)
    (d : String) (i : ℚ) (ts locked : List String) (r : ℕ → ℕ → ℚ)
    (hp : locked.contains "patterns" = false) :
    (params.patterns.length = 2 →
      (applyMutation params ⟨.structural, d, 0.65, ts⟩ locked r).1.patterns.length = 1) ∧
    ((applyMutation params ⟨.structural, d, i, ts⟩ locked r).1.patterns =
        params.patterns.dropLast ∨
      (applyMutation params ⟨.structural, d, i, ts⟩ locked r).1.patterns =
        params.patterns ++ [params.patterns.headI] ∨
      (applyMutation params ⟨.structural, d, i, ts⟩ locked r).1.patterns =
        params.patterns) := by
  have hp' : "patterns" ∉ locked := by simpa using hp
  constructor
  · intro h2
    norm_num [applyMutation, hp', h2]
  · simp only [applyMutation, hp, Bool.false_eq_true, if_false]
    split_ifs
    · left; rfl
    · right; left; rfl
    · right; right; rfl

/-- C8 witness: the structural theorem evaluated at the two-layer sample
input. -/
theorem applyMutation_structural_actions_witness :
    (applyMutation sampleParams ⟨.structural, "", 0.65, []⟩ [] rHalf2).1.patterns.length = 1 :=
  (applyMutation_structural_actions sampleParams "" (0.65) [] [] rHalf2
    (by decide)).1 (by decide)

/-- C9: when the session's current-generation id matches no generation in
its list, `evolveCurrentGeneration` reports the error thrown by the source
before any store update, and the session value is unchanged (same
generation list, same current pointer): no new Generation is produced. -/
theorem evolveCurrentGeneration_no_current (s : Session)
    (feedback : Option String) (r : ℕ → ℕ → ℚ) (newId : String) (now : ℤ)
    (h : ∀ g ∈ s.generations, g.id ≠ s.currentGeneration) :
    (evolveCurrentGeneration s feedback r newId now).1 = s ∧
    (evolveCurrentGeneration s feedback r newId now).2 =
      Except.error "No current generation to evolve" := by
  have hfind : s.generations.find? (fun g => g.id == s.currentGeneration) = none := by
    rw [List.find?_eq_none]
    intro g hg
    simpa using h g hg
  rw [evolveCurrentGeneration, hfind]
  exact ⟨rfl, rfl⟩

/-- C9 witness: the error theorem evaluated at a session with an empty
generation list. -/
theorem evolveCurrentGeneration_no_current_witness :
    (evolveCurrentGeneration emptySession none rHalf2 "gen_1" 0).1 = emptySession ∧
    (evolveCurrentGeneration emptySession none rHalf2 "gen_1" 0).2 =
      Except.error "No current generation to evolve" :=
  evolveCurrentGeneration_no_current emptySession none rHalf2 "gen_1" 0
    (by simp [emptySession])

/-- C10: `parseFeedback` resolves overlapping phrase classes by a fixed
priority: energy-increase ("more energy"/"faster") before darkening
("darker"/"sadder") before simplification ("simpler"/"less") before
experimental ("weird"/"experimental").  In particular any feedback
containing "faster" yields `rhythmic` with intensity 0.7 even when it also
contains "darker". -/
theorem parseFeedback_priority (fb : String) :
    ((strIncludes (strToLower fb) "more energy" = true ∨
        strIncludes (strToLower fb) "faster" = true) →
      parseFeedback fb = some ⟨.rhythmic, 0.7⟩) ∧
    ((strIncludes (strToLower fb) "more energy" = false ∧
        strIncludes (strToLower fb) "faster" = false) →
      (strIncludes (strToLower fb) "darker" = true ∨
        strIncludes (strToLower fb) "sadder" = true) →
      parseFeedback fb = some ⟨.harmonic, 0.6⟩) ∧
    ((strIncludes (strToLower fb) "more energy" = false ∧
        strIncludes (strToLower fb) "faster" = false ∧
        strIncludes (strToLower fb) "darker" = false ∧
        strIncludes (strToLower fb) "sadder" = false) →
      (strIncludes (strToLower fb) "simpler" = true ∨
        strIncludes (strToLower fb) "less" = true) →
      parseFeedback fb = some ⟨.structural, 0.5⟩) ∧
    ((strIncludes (strToLower fb) "more energy" = false ∧
        strIncludes (strToLower fb) "faster" = false ∧
        strIncludes (strToLower fb) "darker" = false ∧
        strIncludes (strToLower fb) "sadder" = false ∧
        strIncludes (strToLower fb) "simpler" = false ∧
        strIncludes (strToLower fb) "less" = false) →
      (strIncludes (strToLower fb) "weird" = true ∨
        strIncludes (strToLower fb) "experimental" = true) →
      parseFeedback fb = some ⟨.radical, 0.9⟩) := by
  refine ⟨fun h => ?_, fun h1 h2 => ?_, fun h1 h2 => ?_, fun h1 h2 => ?_⟩
  · rcases h with h | h <;> simp [parseFeedback, h]
  · obtain ⟨hA, hB⟩ := h1
    rcases h2 with h | h <;> simp [parseFeedback, hA, hB, h]
  · obtain ⟨hA, hB, hC, hD⟩ := h1
    rcases h2 with h | h <;> simp [parseFeedback, hA, hB, hC, hD, h]
  · obtain ⟨hA, hB, hC, hD, hE, hF⟩ := h1
    rcases h2 with h | h <;> simp [parseFeedback, hA, hB, hC, hD, hE, hF, h]

/-- C10 witness: feedback containing both "faster" and "darker" selects the
rhythmic mutation with intensity 0.7, never the harmonic one. -/
theorem parseFeedback_priority_witness :
    parseFeedback "faster and darker" = some ⟨.rhythmic, 0.7⟩ :=
  (parseFeedback_priority "faster and darker").1 (Or.inr (by decide))

end EvoMusic
